import Mathlib

/-!
# Verification of the mcp-erpnext integration and reporting core

Shallow embedding, in Lean 4, of the parts of the `mcp-erpnext` repository
that the specification's claims are about:

* the Frappe REST client's request error classification
  (`lib/erpnext/api/frappe-client.ts`, `FrappeClient.request`);
* the generic operations tool catalog (`lib/erpnext/tools/operations.ts`);
* the fetch-then-submit handlers (`erpnext_doc_submit`,
  `erpnext_sales_order_submit`, `erpnext_sales_invoice_submit`);
* the wire-format projection of tool definitions
  (`lib/erpnext/tools/types.ts`, `toMCPWireFormat`, and
  `ErpNextToolsClient.toMCPFormat`);
* the pure aggregation handlers of `lib/erpnext/tools/analytics.ts`
  (`erpnext_order_pipeline`, `erpnext_purchase_pipeline`,
  `erpnext_stock_chart`, `erpnext_revenue_trend`, `erpnext_order_breakdown`,
  `erpnext_revenue_vs_orders`, `erpnext_sales_funnel`, `erpnext_ar_aging`).

Conventions of the embedding:

* JavaScript numbers are modelled as exact rationals (`ℚ`); the analytics
  code only adds, divides and rounds display values, and the claims under
  test are about the formulas, not float ulps.
* Millisecond timestamps (`Date.getTime()`) are modelled as integers (`ℤ`).
* A JS object is an insertion-ordered association list of string keys to
  `JsVal` values; `x ?? y` on a possibly-missing field is `Option`.
* `Number(x) || 0` on a numeric-or-missing field is `Option ℚ` with
  `.getD 0`.
* Async handlers are pure functions of the record lists they fetched; the
  one claim where the order of client calls matters (the submit handlers)
  is modelled as the list of client calls the handler performs.
-/

namespace Mcp

/-- A parsed JSON value (the shapes the embedded code actually touches). -/
inductive JsVal where
  | null : JsVal
  | str (s : String) : JsVal
  | num (q : ℚ) : JsVal
  | obj (fields : List (String × JsVal)) : JsVal
deriving Repr

/-- A JS object as an insertion-ordered association list. -/
abbrev JsObj := List (String × JsVal)

/-- `{...o, k: v}`: every field of `o` in order, with the value at key `k`
replaced (keeping its position) when present, appended otherwise. -/
def objSet (o : JsObj) (k : String) (v : JsVal) : JsObj :=
  if o.any (fun p => p.1 = k) then
    o.map (fun p => if p.1 = k then (k, v) else p)
  else
    o ++ [(k, v)]

/-- First value at key `k`, when the object has one. -/
def objGet (o : JsObj) (k : String) : Option JsVal :=
  (o.find? (fun p => p.1 = k)).map Prod.snd

/-! ## FrappeClient.request — error classification

`lib/erpnext/api/frappe-client.ts`, `FrappeClient.request`:

```ts
try {
  response = await fetch(url, {...});
} catch (err) {
  clearTimeout(timer);
  if (err instanceof Error && err.name === "AbortError") {
    throw new FrappeAPIError(`Request timed out after ${timeoutMs}ms: ...`, 408, null);
  }
  throw new FrappeAPIError(`Network error on ...`, 0, null);
}
...
if (!response.ok) {
  const msg = ... body.message ?? body.exc_type ?? statusText ...;
  throw new FrappeAPIError(`... failed: ${msg}`, response.status, responseBody);
}
return responseBody as T;
```
-/

/-- The error thrown by `FrappeClient` on any failed request: human message,
HTTP status (0 for network errors, 408 for timeouts) and the raw parsed
response body (`none` models the `null` body of timeout/network errors). -/
structure FrappeAPIError where
  message : String
  status : Nat
  body : Option JsVal
deriving Repr

/-- Outcome of the `fetch` call inside `FrappeClient.request`, after the
response body has been read and parsed (JSON body as `JsVal.obj`/..., plain
text body as `JsVal.str`):
* `abortError` — the fetch promise rejected with an `AbortError` (the abort
  signal fired, i.e. the request timed out);
* `otherError msg` — the fetch promise rejected with any other error
  (transport never reached);
* `response status statusText body` — an HTTP response arrived; `ok` is
  derived from the status as in the fetch API (`200 ≤ status ≤ 299`). -/
inductive FetchOutcome where
  | abortError : FetchOutcome
  | otherError (msg : String) : FetchOutcome
  | response (status : Nat) (statusText : String) (body : JsVal) : FetchOutcome
deriving Repr

/-- `response.ok` of the fetch API: status in the inclusive range 200–299. -/
def fetchOk (status : Nat) : Bool := 200 ≤ status && status ≤ 299

/-- The error-message extraction of the non-ok branch:
`body.message ?? body.exc_type ?? response.statusText` (string fields;
a missing or null field falls through). -/
def errMsgOf (body : JsVal) (statusText : String) : String :=
  match body with
  | JsVal.obj fields =>
      match objGet fields "message" with
      | some (JsVal.str m) => m
      | _ =>
          match objGet fields "exc_type" with
          | some (JsVal.str e) => e
          | _ => statusText
  | _ => statusText

/-- `FrappeClient.request`, as a function of the fetch outcome. Mirrors the
try/catch and the `!response.ok` branch of the source; `method`, `path` and
`timeoutMs` feed the message strings exactly as the source interpolates
them. -/
def frappeRequest (timeoutMs : Nat) (method path : String)
    (outcome : FetchOutcome) : Except FrappeAPIError JsVal :=
  match outcome with
  | FetchOutcome.abortError =>
      Except.error
        { message := "Request timed out after " ++ toString timeoutMs ++
            "ms: " ++ method ++ " " ++ path
          status := 408
          body := none }
  | FetchOutcome.otherError msg =>
      Except.error
        { message := "Network error on " ++ method ++ " " ++ path ++ ": " ++ msg
          status := 0
          body := none }
  | FetchOutcome.response status statusText body =>
      if fetchOk status then
        Except.ok body
      else
        Except.error
          { message := method ++ " " ++ path ++ " failed: " ++
              errMsgOf body statusText
            status := status
            body := some body }

/-- The status of the error a request outcome produced, when it failed. -/
def errStatus : Except FrappeAPIError JsVal → Option Nat
  | Except.error e => some e.status
  | Except.ok _ => none

/-- The body carried by the error a request outcome produced. -/
def errBody : Except FrappeAPIError JsVal → Option (Option JsVal)
  | Except.error e => some e.body
  | Except.ok _ => none

/-- C3 (counterexample): the three failure classes of `FrappeClient.request`
are *not* pairwise distinguishable by status. A fired abort yields a
`FrappeAPIError` with status 408, but a remote server that itself answers
HTTP 408 (Request Timeout) also yields a `FrappeAPIError` with status 408 —
two different failure classes, same status. -/
theorem frappeRequest_status_collision_408 :
    errStatus (frappeRequest 30000 "GET" "/api/resource/Item"
        FetchOutcome.abortError) = some 408 ∧
    errStatus (frappeRequest 30000 "GET" "/api/resource/Item"
        (FetchOutcome.response 408 "Request Timeout"
          (JsVal.obj [("message", JsVal.str "request timed out upstream")])))
      = some 408 := by
  exact ⟨rfl, rfl⟩

/-- C3 (amended): for every request made by `FrappeClient.request`: a fired
abort throws a `FrappeAPIError` with status 408 and null body; any other
fetch failure (transport never reached) throws with status 0 and null body;
a non-ok HTTP response throws with exactly the remote HTTP status and the
raw parsed response body; the request succeeds exactly on an ok response,
so no error is swallowed or downgraded; the abort and network classes are
always distinguishable from each other by status, and an HTTP error is
distinguishable by status from both whenever the remote status is neither
408 nor 0. -/
theorem frappeRequest_error_classification (tm : Nat) (method path : String) :
    (errStatus (frappeRequest tm method path FetchOutcome.abortError)
        = some 408 ∧
      errBody (frappeRequest tm method path FetchOutcome.abortError)
        = some none) ∧
    (∀ msg : String,
      errStatus (frappeRequest tm method path (FetchOutcome.otherError msg))
          = some 0 ∧
        errBody (frappeRequest tm method path (FetchOutcome.otherError msg))
          = some none) ∧
    (∀ (st : Nat) (sx : String) (b : JsVal), fetchOk st = false →
      errStatus (frappeRequest tm method path (FetchOutcome.response st sx b))
          = some st ∧
        errBody (frappeRequest tm method path (FetchOutcome.response st sx b))
          = some (some b)) ∧
    (∀ (st : Nat) (sx : String) (b : JsVal),
      (∃ v, frappeRequest tm method path (FetchOutcome.response st sx b)
          = Except.ok v) ↔ fetchOk st = true) ∧
    ((408 : Nat) ≠ 0 ∧
      ∀ st : Nat, st ≠ 408 → st ≠ 0 → st ≠ 408 ∧ st ≠ 0) := by
  refine ⟨⟨rfl, rfl⟩, fun msg => ⟨rfl, rfl⟩, ?_, ?_, ?_⟩
  · intro st sx b h
    simp [frappeRequest, errStatus, errBody, h]
  · intro st sx b
    constructor
    · rintro ⟨v, hv⟩
      by_contra hok
      simp only [frappeRequest, Bool.not_eq_true] at hv hok
      rw [hok] at hv
      simp at hv
    · intro hok
      exact ⟨b, by simp [frappeRequest, hok]⟩
  · exact ⟨by decide, fun st h1 h2 => ⟨h1, h2⟩⟩

/-- C3 witness: the amended classification at concrete inputs — a remote
HTTP 500 with a JSON body is classified with status 500 and its body
preserved, and 500 is distinct from both 408 and 0. -/
theorem frappeRequest_error_classification_witness :
    fetchOk 500 = false ∧
    (errStatus (frappeRequest 30000 "POST" "/api/method/frappe.client.submit"
          (FetchOutcome.response 500 "Internal Server Error"
            (JsVal.obj [("exc_type", JsVal.str "ValidationError")])))
        = some 500 ∧
      errBody (frappeRequest 30000 "POST" "/api/method/frappe.client.submit"
          (FetchOutcome.response 500 "Internal Server Error"
            (JsVal.obj [("exc_type", JsVal.str "ValidationError")])))
        = some (some (JsVal.obj [("exc_type", JsVal.str "ValidationError")]))) := by
  refine ⟨by decide, ?_⟩
  exact (frappeRequest_error_classification 30000 "POST"
    "/api/method/frappe.client.submit").2.2.1 500 "Internal Server Error"
    (JsVal.obj [("exc_type", JsVal.str "ValidationError")]) (by decide)

/-! ## Submit handlers — fetch-then-forward

`lib/erpnext/tools/operations.ts` (`erpnext_doc_submit`) and
`lib/erpnext/tools/sales.ts` (`erpnext_sales_order_submit`,
`erpnext_sales_invoice_submit`):

```ts
// Fetch fresh doc first — frappe.client.submit requires `modified`
const doc = await ctx.client.get(input.doctype, input.name);
const result = await ctx.client.callMethod("frappe.client.submit", {
  doc: { ...doc, doctype: input.doctype },
});
```

The handlers are modelled by the ordered list of client calls they perform.
The client's `get` is an oracle `String → String → JsObj` mapping
`(doctype, name)` to the fetched document. Input validation (`if
(!input.name) throw ...`) is the `Except.error` branch; a missing string
input is the empty string (the only falsy string). -/

/-- One call made on the `FrappeClient` by a tool handler. -/
inductive ClientCall where
  | get (doctype name : String) : ClientCall
  | callMethod (method : String) (args : JsObj) : ClientCall
deriving Repr

/-- The `erpnext_doc_submit` handler: validates inputs, then fetches the
fresh document and forwards it — with its `doctype` stamped on — to
`frappe.client.submit`. Returns the ordered list of client calls. -/
def erpnext_doc_submit (clientGet : String → String → JsObj)
    (doctype name : String) : Except String (List ClientCall) :=
  if doctype = "" then
    Except.error "[erpnext_doc_submit] 'doctype' is required"
  else if name = "" then
    Except.error "[erpnext_doc_submit] 'name' is required"
  else
    let doc := clientGet doctype name
    Except.ok
      [ ClientCall.get doctype name,
        ClientCall.callMethod "frappe.client.submit"
          [("doc", JsVal.obj (objSet doc "doctype" (JsVal.str doctype)))] ]

/-- The `erpnext_sales_order_submit` handler (doctype fixed to
`"Sales Order"`). -/
def erpnext_sales_order_submit (clientGet : String → String → JsObj)
    (name : String) : Except String (List ClientCall) :=
  if name = "" then
    Except.error "[erpnext_sales_order_submit] 'name' is required"
  else
    let doc := clientGet "Sales Order" name
    Except.ok
      [ ClientCall.get "Sales Order" name,
        ClientCall.callMethod "frappe.client.submit"
          [("doc", JsVal.obj (objSet doc "doctype" (JsVal.str "Sales Order")))] ]

/-- The `erpnext_sales_invoice_submit` handler (doctype fixed to
`"Sales Invoice"`). -/
def erpnext_sales_invoice_submit (clientGet : String → String → JsObj)
    (name : String) : Except String (List ClientCall) :=
  if name = "" then
    Except.error "[erpnext_sales_invoice_submit] 'name' is required"
  else
    let doc := clientGet "Sales Invoice" name
    Except.ok
      [ ClientCall.get "Sales Invoice" name,
        ClientCall.callMethod "frappe.client.submit"
          [("doc", JsVal.obj (objSet doc "doctype" (JsVal.str "Sales Invoice")))] ]

/-- In a trace of the shape `[get dt nm, submit args]`, every submit call is
preceded by a fetch of the same `(doctype, name)` and forwards exactly the
given payload. -/
theorem fetch_then_submit_trace (dt nm : String) (payload : JsObj) :
    ∀ (j : Nat) (args : JsObj),
      ([ClientCall.get dt nm,
        ClientCall.callMethod "frappe.client.submit" payload].get? j
          = some (ClientCall.callMethod "frappe.client.submit" args)) →
      ∃ i, i < j ∧
        ([ClientCall.get dt nm,
          ClientCall.callMethod "frappe.client.submit" payload].get? i
            = some (ClientCall.get dt nm)) ∧
        args = payload := by
  intro j args h
  match j with
  | 0 => simp at h
  | 1 =>
      refine ⟨0, by omega, rfl, ?_⟩
      simp only [List.get?] at h
      cases h
      rfl
  | n + 2 => simp at h

/-- C1: every submit handler (generic `erpnext_doc_submit` and the typed
`erpnext_sales_order_submit` / `erpnext_sales_invoice_submit`) first fetches
the full target record by id via the client's `get`, and the document
forwarded to `frappe.client.submit` is exactly that freshly fetched record
with its doctype tag stamped on; in every successful trace, each submit
call is preceded by a fetch of the same `(doctype, name)`. -/
theorem submit_handlers_fetch_then_forward
    (clientGet : String → String → JsObj) :
    (∀ dt nm trace, erpnext_doc_submit clientGet dt nm = Except.ok trace →
      trace = [ClientCall.get dt nm,
        ClientCall.callMethod "frappe.client.submit"
          [("doc", JsVal.obj (objSet (clientGet dt nm) "doctype"
            (JsVal.str dt)))]] ∧
      ∀ j args, trace.get? j
          = some (ClientCall.callMethod "frappe.client.submit" args) →
        ∃ i, i < j ∧ trace.get? i = some (ClientCall.get dt nm) ∧
          args = [("doc", JsVal.obj (objSet (clientGet dt nm) "doctype"
            (JsVal.str dt)))]) ∧
    (∀ nm trace, erpnext_sales_order_submit clientGet nm = Except.ok trace →
      trace = [ClientCall.get "Sales Order" nm,
        ClientCall.callMethod "frappe.client.submit"
          [("doc", JsVal.obj (objSet (clientGet "Sales Order" nm) "doctype"
            (JsVal.str "Sales Order")))]] ∧
      ∀ j args, trace.get? j
          = some (ClientCall.callMethod "frappe.client.submit" args) →
        ∃ i, i < j ∧
          trace.get? i = some (ClientCall.get "Sales Order" nm) ∧
          args = [("doc", JsVal.obj (objSet (clientGet "Sales Order" nm)
            "doctype" (JsVal.str "Sales Order")))]) ∧
    (∀ nm trace, erpnext_sales_invoice_submit clientGet nm = Except.ok trace →
      trace = [ClientCall.get "Sales Invoice" nm,
        ClientCall.callMethod "frappe.client.submit"
          [("doc", JsVal.obj (objSet (clientGet "Sales Invoice" nm) "doctype"
            (JsVal.str "Sales Invoice")))]] ∧
      ∀ j args, trace.get? j
          = some (ClientCall.callMethod "frappe.client.submit" args) →
        ∃ i, i < j ∧
          trace.get? i = some (ClientCall.get "Sales Invoice" nm) ∧
          args = [("doc", JsVal.obj (objSet (clientGet "Sales Invoice" nm)
            "doctype" (JsVal.str "Sales Invoice")))]) := by
  refine ⟨?_, ?_, ?_⟩
  · intro dt nm trace h
    unfold erpnext_doc_submit at h
    split at h
    · exact absurd h (by simp)
    · split at h
      · exact absurd h (by simp)
      · cases h
        exact ⟨rfl, fetch_then_submit_trace dt nm _⟩
  · intro nm trace h
    unfold erpnext_sales_order_submit at h
    split at h
    · exact absurd h (by simp)
    · cases h
      exact ⟨rfl, fetch_then_submit_trace "Sales Order" nm _⟩
  · intro nm trace h
    unfold erpnext_sales_invoice_submit at h
    split at h
    · exact absurd h (by simp)
    · cases h
      exact ⟨rfl, fetch_then_submit_trace "Sales Invoice" nm _⟩

/-- A concrete client `get` oracle for the C1 witness: every `(doctype,
name)` resolves to a small document with its current `modified` stamp. -/
def witnessClientGet (doctype name : String) : JsObj :=
  [ ("name", JsVal.str name),
    ("doctype", JsVal.str doctype),
    ("modified", JsVal.str "2025-06-01 10:00:00.000000"),
    ("docstatus", JsVal.num 0) ]

/-- C1 witness: the generic submit handler on `("Sales Order", "SO-00001")`
produces exactly the fetch-then-forward trace. -/
theorem submit_handlers_fetch_then_forward_witness :
    erpnext_doc_submit witnessClientGet "Sales Order" "SO-00001"
        = Except.ok
          [ ClientCall.get "Sales Order" "SO-00001",
            ClientCall.callMethod "frappe.client.submit"
              [("doc", JsVal.obj (objSet
                (witnessClientGet "Sales Order" "SO-00001") "doctype"
                (JsVal.str "Sales Order")))] ] ∧
    [ ClientCall.get "Sales Order" "SO-00001",
      ClientCall.callMethod "frappe.client.submit"
        [("doc", JsVal.obj (objSet
          (witnessClientGet "Sales Order" "SO-00001") "doctype"
          (JsVal.str "Sales Order")))] ]
      = [ClientCall.get "Sales Order" "SO-00001",
        ClientCall.callMethod "frappe.client.submit"
          [("doc", JsVal.obj (objSet
            (witnessClientGet "Sales Order" "SO-00001") "doctype"
            (JsVal.str "Sales Order")))]] := by
  have h : erpnext_doc_submit witnessClientGet "Sales Order" "SO-00001"
      = Except.ok
        [ ClientCall.get "Sales Order" "SO-00001",
          ClientCall.callMethod "frappe.client.submit"
            [("doc", JsVal.obj (objSet
              (witnessClientGet "Sales Order" "SO-00001") "doctype"
              (JsVal.str "Sales Order")))] ] := rfl
  exact ⟨h,
    ((submit_handlers_fetch_then_forward witnessClientGet).1
      "Sales Order" "SO-00001" _ h).1⟩

/-! ## The generic operations catalog

`lib/erpnext/tools/operations.ts`, `operationsTools`. Each entry of the
array is recorded here by its registration signature: tool name, category,
the property names of its `inputSchema`, and the schema's `required` list,
transcribed in source order. -/

/-- The registration signature of one tool of `operationsTools`. -/
structure OpToolSig where
  name : String
  category : String
  propertyNames : List String
  required : List String
deriving Repr, DecidableEq

/-- The `operationsTools` array of `lib/erpnext/tools/operations.ts`, in
source order. -/
def operationsTools : List OpToolSig :=
  [ { name := "erpnext_doc_create", category := "operations",
      propertyNames := ["doctype", "data"],
      required := ["doctype", "data"] },
    { name := "erpnext_doc_update", category := "operations",
      propertyNames := ["doctype", "name", "data"],
      required := ["doctype", "name", "data"] },
    { name := "erpnext_doc_delete", category := "operations",
      propertyNames := ["doctype", "name"],
      required := ["doctype", "name"] },
    { name := "erpnext_doc_submit", category := "operations",
      propertyNames := ["doctype", "name"],
      required := ["doctype", "name"] },
    { name := "erpnext_doc_cancel", category := "operations",
      propertyNames := ["doctype", "name"],
      required := ["doctype", "name"] },
    { name := "erpnext_doc_get", category := "operations",
      propertyNames := ["doctype", "name"],
      required := ["doctype", "name"] },
    { name := "erpnext_doc_list", category := "operations",
      propertyNames := ["doctype", "fields", "filters", "limit", "order_by"],
      required := ["doctype"] } ]

/-- C2 (counterexample): the number of tools in the operations category is
not six — `operationsTools` has seven entries. -/
theorem operationsTools_count_ne_six : ¬ (operationsTools.length = 6) := by
  decide

/-- C2 (amended): the generic operations bucket exposes exactly **seven**
type-parameterized operations — create, update, delete, submit, cancel,
get, list — each taking an explicit `doctype` argument (present among the
schema's properties and listed as required). -/
theorem operationsTools_seven_doctype_parameterized :
    operationsTools.length = 7 ∧
    operationsTools.map OpToolSig.name =
      ["erpnext_doc_create", "erpnext_doc_update", "erpnext_doc_delete",
        "erpnext_doc_submit", "erpnext_doc_cancel", "erpnext_doc_get",
        "erpnext_doc_list"] ∧
    operationsTools.all
      (fun t => t.propertyNames.contains "doctype" &&
        t.required.contains "doctype" &&
        (t.category == "operations")) = true := by
  refine ⟨rfl, rfl, by decide⟩

/-! ## Tool definitions and the MCP wire-format projection

`lib/erpnext/tools/types.ts` (`ErpNextTool`, `MCPToolWireFormat`,
`toMCPWireFormat`) and the identical inline projection
`ErpNextToolsClient.toMCPFormat` in the UI client. The input-schema value
and the handler are carried opaquely (the projection moves them without
inspecting them), so both are type parameters. -/

/-- The optional MCP Apps UI metadata: `{ ui: { resourceUri } }`. -/
structure MetaUI where
  resourceUri : String
deriving Repr, DecidableEq

/-- `ErpNextTool`: name, description, category, input schema, optional UI
metadata, handler. -/
structure ErpNextTool (S H : Type) where
  name : String
  description : String
  category : String
  inputSchema : S
  meta : Option MetaUI
  handler : H

/-- `MCPToolWireFormat`: the protocol-facing projection of a tool. -/
structure MCPToolWireFormat (S : Type) where
  name : String
  description : String
  inputSchema : S
  meta : Option MetaUI

/-- `toMCPWireFormat`: builds the wire object from name, description and
inputSchema, then copies `_meta` exactly when present (the `if (tool._meta)
wire._meta = tool._meta` branch). -/
def toMCPWireFormat {S H : Type} (tool : ErpNextTool S H) :
    MCPToolWireFormat S :=
  let wire : MCPToolWireFormat S :=
    { name := tool.name
      description := tool.description
      inputSchema := tool.inputSchema
      meta := none }
  match tool.meta with
  | some m => { wire with meta := some m }
  | none => wire

/-- `ErpNextToolsClient.toMCPFormat`: the same projection mapped over the
client's tool list (the loop body is textually the same object literal). -/
def toMCPFormat {S H : Type} (tools : List (ErpNextTool S H)) :
    List (MCPToolWireFormat S) :=
  tools.map (fun t =>
    let wire : MCPToolWireFormat S :=
      { name := t.name
        description := t.description
        inputSchema := t.inputSchema
        meta := none }
    match t.meta with
    | some m => { wire with meta := some m }
    | none => wire)

/-- C9: projecting any `ErpNextTool` to wire format preserves name,
description and input schema exactly, carries the optional UI metadata over
exactly when present, and loses or renames no wire field (the wire object
has exactly these four fields, so the conjunction below accounts for every
one of them); `ErpNextToolsClient.toMCPFormat` is the same projection
mapped over the tool list. -/
theorem toMCPWireFormat_preserves_fields {S H : Type} :
    (∀ tool : ErpNextTool S H,
      (toMCPWireFormat tool).name = tool.name ∧
      (toMCPWireFormat tool).description = tool.description ∧
      (toMCPWireFormat tool).inputSchema = tool.inputSchema ∧
      (toMCPWireFormat tool).meta = tool.meta) ∧
    (∀ tools : List (ErpNextTool S H),
      toMCPFormat tools = tools.map toMCPWireFormat) := by
  constructor
  · intro tool
    obtain ⟨n, d, c, s, m, h⟩ := tool
    cases m <;> exact ⟨rfl, rfl, rfl, rfl⟩
  · intro tools
    unfold toMCPFormat toMCPWireFormat
    rfl

/-! ## Analytics: sales funnel

`lib/erpnext/tools/analytics.ts`, `erpnext_sales_funnel`. The handler
fetches four record lists (Leads, Opportunities, Quotations, Sales Orders)
and builds the four `stages` entries; the aggregation below is that pure
part. `Math.round` on a nonnegative JS number is `⌊x + 1/2⌋` (half away
from zero, here half up). -/

/-- JS `Math.round`: nearest integer, halves toward `+∞`. -/
def jsRound (x : ℚ) : ℤ := ⌊x + 1 / 2⌋

/-- A fetched record carrying a `grand_total` field (Quotation, Sales
Order); `none` models a missing/null field. -/
structure ValRec where
  name : String
  grand_total : Option ℚ
deriving Repr

/-- A fetched Opportunity record. -/
structure OppRec where
  name : String
  opportunity_amount : Option ℚ
deriving Repr

/-- `Number(x) || 0` on a `grand_total` field. -/
def valAmount (r : ValRec) : ℚ := r.grand_total.getD 0

/-- `Number(x) || 0` on an `opportunity_amount` field. -/
def oppAmount (r : OppRec) : ℚ := r.opportunity_amount.getD 0

/-- One funnel stage of the `erpnext_sales_funnel` output. The first stage
(Leads) carries neither a value nor a conversion rate. -/
structure FunnelStage where
  label : String
  count : Nat
  value : Option ℚ
  conversionRate : Option ℤ
deriving Repr

/-- The `stages` array of `erpnext_sales_funnel`, as built from the four
fetched lists: each later stage's conversion rate is
`prev.length > 0 ? Math.round((this.length / prev.length) * 100) : 0`. -/
def erpnext_sales_funnel (leads : List String) (opps : List OppRec)
    (quots orders : List ValRec) : List FunnelStage :=
  [ { label := "Leads", count := leads.length, value := none,
      conversionRate := none },
    { label := "Opportunities", count := opps.length,
      value := some ((opps.map oppAmount).sum),
      conversionRate := some (if 0 < leads.length then
        jsRound ((opps.length : ℚ) / (leads.length : ℚ) * 100) else 0) },
    { label := "Quotations", count := quots.length,
      value := some ((quots.map valAmount).sum),
      conversionRate := some (if 0 < opps.length then
        jsRound ((quots.length : ℚ) / (opps.length : ℚ) * 100) else 0) },
    { label := "Orders", count := orders.length,
      value := some ((orders.map valAmount).sum),
      conversionRate := some (if 0 < quots.length then
        jsRound ((orders.length : ℚ) / (quots.length : ℚ) * 100) else 0) } ]

/-- The default stage used for out-of-range indexing. -/
def noStage : FunnelStage :=
  { label := "", count := 0, value := none, conversionRate := none }

/-- The guarded conversion-rate formula of the claim:
`round(100 * thisCount / previousCount)` when the previous count is
positive, `0` when it is zero. -/
def conversionRateSpec (thisCount prevCount : Nat) : ℤ :=
  if 0 < prevCount then
    jsRound (100 * (thisCount : ℚ) / (prevCount : ℚ))
  else 0

/-- C4: in the `erpnext_sales_funnel` output, every stage after the first
carries `conversionRate = round(100 * thisStageCount / previousStageCount)`
when the previous stage count is positive and `0` when it is zero — a total
integer value for every input (so never NaN or Infinity) — and the first
stage carries no conversion rate. -/
theorem sales_funnel_conversion_rates (leads : List String)
    (opps : List OppRec) (quots orders : List ValRec) :
    ((erpnext_sales_funnel leads opps quots orders).getD 0 noStage).conversionRate
        = none ∧
    ((erpnext_sales_funnel leads opps quots orders).getD 1 noStage).conversionRate
        = some (conversionRateSpec opps.length leads.length) ∧
    ((erpnext_sales_funnel leads opps quots orders).getD 2 noStage).conversionRate
        = some (conversionRateSpec quots.length opps.length) ∧
    ((erpnext_sales_funnel leads opps quots orders).getD 3 noStage).conversionRate
        = some (conversionRateSpec orders.length quots.length) := by
  have key : ∀ t p : Nat,
      (if 0 < p then jsRound ((t : ℚ) / (p : ℚ) * 100) else 0)
        = conversionRateSpec t p := by
    intro t p
    unfold conversionRateSpec
    by_cases h : 0 < p
    · simp only [h, if_true]
      congr 1
      ring
    · simp [h]
  refine ⟨rfl, ?_, ?_, ?_⟩ <;>
    simp [erpnext_sales_funnel, key]

/-! ## Analytics: order and purchase pipelines

`lib/erpnext/tools/analytics.ts`, `erpnext_order_pipeline` and
`erpnext_purchase_pipeline`. The handler groups the fetched orders by
`(order.status as string) ?? "Draft"` into insertion-ordered buckets, then
walks the literal `STATUS_MAP` in entry order, keeps the statuses whose
bucket is non-empty, and builds one column per kept status. Grouping by a
single pass preserves the fetched order inside each bucket, so the bucket
of a status equals `orders.filter` on that status key. -/

/-- A fetched Sales Order row (the fields the pipeline handler selects). -/
structure SOrder where
  name : String
  customer : Option String
  customer_name : Option String
  status : Option String
  grand_total : Option ℚ
  transaction_date : Option String
  delivery_date : Option String
deriving Repr, DecidableEq

/-- `(order.status as string) ?? "Draft"`. -/
def soStatusKey (o : SOrder) : String := o.status.getD "Draft"

/-- `Number(o.grand_total) || 0`. -/
def soAmount (o : SOrder) : ℚ := o.grand_total.getD 0

/-- The `STATUS_MAP` literal of `erpnext_order_pipeline`:
status → (label, color), in source entry order. -/
def SO_STATUS_MAP : List (String × String × String) :=
  [ ("Draft", "Draft", "#78716c"),
    ("Open", "Open", "#fbbf24"),
    ("To Deliver and Bill", "To Deliver", "#60a5fa"),
    ("To Bill", "To Bill", "#c084fc"),
    ("Completed", "Completed", "#4ade80"),
    ("Cancelled", "Cancelled", "#f87171") ]

/-- The bucket of a status key: the fetched orders whose
`status ?? "Draft"` equals it, in fetched order. -/
def soOrdersFor (orders : List SOrder) (s : String) : List SOrder :=
  orders.filter (fun o => soStatusKey o == s)

/-- An order card inside a pipeline column: `customer` is
`customer_name ?? customer`. -/
structure OrderCard where
  name : String
  customer : Option String
  amount : ℚ
  date : Option String
  delivery_date : Option String
deriving Repr, DecidableEq

/-- The card built from a Sales Order row. -/
def soCard (o : SOrder) : OrderCard :=
  { name := o.name
    customer := o.customer_name <|> o.customer
    amount := soAmount o
    date := o.transaction_date
    delivery_date := o.delivery_date }

/-- One kanban column of the pipeline output. -/
structure PipelineColumn where
  status : String
  label : String
  color : String
  count : Nat
  total : ℚ
  orders : List OrderCard
deriving Repr, DecidableEq

/-- The `columns` array of `erpnext_order_pipeline`: the `STATUS_MAP`
entries with a non-empty bucket, each with its bucket's count, summed
total and order cards. -/
def erpnext_order_pipeline (orders : List SOrder) : List PipelineColumn :=
  (SO_STATUS_MAP.filter
      (fun e => 0 < (soOrdersFor orders e.1).length)).map
    (fun e =>
      let statusOrders := soOrdersFor orders e.1
      { status := e.1
        label := e.2.1
        color := e.2.2
        count := statusOrders.length
        total := (statusOrders.map soAmount).sum
        orders := statusOrders.map soCard })

/-- A fetched Purchase Order row (the fields the purchase pipeline handler
selects). -/
structure POrder where
  name : String
  supplier : Option String
  supplier_name : Option String
  status : Option String
  grand_total : Option ℚ
  transaction_date : Option String
  schedule_date : Option String
deriving Repr, DecidableEq

/-- `(order.status as string) ?? "Draft"` for Purchase Orders. -/
def poStatusKey (o : POrder) : String := o.status.getD "Draft"

/-- `Number(o.grand_total) || 0` for Purchase Orders. -/
def poAmount (o : POrder) : ℚ := o.grand_total.getD 0

/-- The `STATUS_MAP` literal of `erpnext_purchase_pipeline`. -/
def PO_STATUS_MAP : List (String × String × String) :=
  [ ("Draft", "Draft", "#78716c"),
    ("To Receive and Bill", "To Receive", "#60a5fa"),
    ("To Receive", "To Receive Only", "#fbbf24"),
    ("To Bill", "To Bill", "#c084fc"),
    ("Completed", "Completed", "#4ade80"),
    ("Cancelled", "Cancelled", "#f87171") ]

/-- The bucket of a status key for Purchase Orders. -/
def poOrdersFor (orders : List POrder) (s : String) : List POrder :=
  orders.filter (fun o => poStatusKey o == s)

/-- The card built from a Purchase Order row: `customer` is
`supplier_name ?? supplier`, `delivery_date` is `schedule_date`. -/
def poCard (o : POrder) : OrderCard :=
  { name := o.name
    customer := o.supplier_name <|> o.supplier
    amount := poAmount o
    date := o.transaction_date
    delivery_date := o.schedule_date }

/-- The `columns` array of `erpnext_purchase_pipeline`. -/
def erpnext_purchase_pipeline (orders : List POrder) : List PipelineColumn :=
  (PO_STATUS_MAP.filter
      (fun e => 0 < (poOrdersFor orders e.1).length)).map
    (fun e =>
      let statusOrders := poOrdersFor orders e.1
      { status := e.1
        label := e.2.1
        color := e.2.2
        count := statusOrders.length
        total := (statusOrders.map poAmount).sum
        orders := statusOrders.map poCard })

/-- Keeping only the orders whose status key appears in `SO_STATUS_MAP`
does not change any status bucket of a mapped status. -/
theorem soOrdersFor_filter_mapped (orders : List SOrder) (s : String)
    (hs : SO_STATUS_MAP.any (fun e => e.1 == s) = true) :
    soOrdersFor
        (orders.filter
          (fun o => SO_STATUS_MAP.any (fun e => e.1 == soStatusKey o))) s
      = soOrdersFor orders s := by
  unfold soOrdersFor
  rw [List.filter_filter]
  apply List.filter_congr
  intro o _
  by_cases h : soStatusKey o = s
  · simp [h, hs]
  · simp [h]

/-- The pipeline output only depends on the status buckets of the mapped
statuses. -/
theorem erpnext_order_pipeline_congr (orders1 orders2 : List SOrder)
    (h : ∀ e ∈ SO_STATUS_MAP,
      soOrdersFor orders1 e.1 = soOrdersFor orders2 e.1) :
    erpnext_order_pipeline orders1 = erpnext_order_pipeline orders2 := by
  unfold erpnext_order_pipeline
  have hfilter :
      SO_STATUS_MAP.filter
          (fun e => decide (0 < (soOrdersFor orders1 e.1).length))
        = SO_STATUS_MAP.filter
          (fun e => decide (0 < (soOrdersFor orders2 e.1).length)) :=
    List.filter_congr (fun e he => by rw [h e he])
  rw [hfilter]
  apply List.map_congr_left
  intro e he
  rw [h e (List.mem_of_mem_filter he)]

/-- C6: the `erpnext_order_pipeline` aggregation — on the three-order
scenario with totals `[1000, 2000, 1500]` and statuses
`[Draft, Draft, Completed]` the columns are exactly a Draft column with
count 2 and total 3000 and a Completed column with count 1 and total 1500;
dropping the records whose status key is not a `STATUS_MAP` key changes
nothing (an unmapped record produces no column and contributes to no
column's count or total); and every emitted column's status is a
`STATUS_MAP` key (no "other" column). -/
theorem order_pipeline_aggregation :
    ((erpnext_order_pipeline
        [ { name := "SO-1", customer := some "CUST-1",
            customer_name := some "Alice", status := some "Draft",
            grand_total := some 1000,
            transaction_date := some "2025-01-01", delivery_date := none },
          { name := "SO-2", customer := some "CUST-2",
            customer_name := some "Bob", status := some "Draft",
            grand_total := some 2000,
            transaction_date := some "2025-01-02", delivery_date := none },
          { name := "SO-3", customer := some "CUST-3",
            customer_name := some "Carol", status := some "Completed",
            grand_total := some 1500,
            transaction_date := some "2025-01-03",
            delivery_date := none } ]).map
        (fun c => (c.status, c.count, c.total))
      = [("Draft", 2, (3000 : ℚ)), ("Completed", 1, (1500 : ℚ))]) ∧
    (∀ orders : List SOrder,
      erpnext_order_pipeline
          (orders.filter
            (fun o => SO_STATUS_MAP.any (fun e => e.1 == soStatusKey o)))
        = erpnext_order_pipeline orders) ∧
    (∀ orders : List SOrder,
      (erpnext_order_pipeline orders).all
        (fun c => SO_STATUS_MAP.any (fun e => e.1 == c.status)) = true) := by
  refine ⟨?_, ?_, ?_⟩
  · simp only [erpnext_order_pipeline, SO_STATUS_MAP, soOrdersFor,
      soStatusKey, soAmount, soCard, List.filter, List.map]
    simp
    norm_num
  · intro orders
    exact erpnext_order_pipeline_congr _ _ (fun e he =>
      soOrdersFor_filter_mapped orders e.1
        (List.any_eq_true.2 ⟨e, he, by simp⟩))
  · intro orders
    rw [List.all_eq_true]
    intro c hc
    obtain ⟨e, hef, rfl⟩ := List.mem_map.1 hc
    exact List.any_eq_true.2
      ⟨e, List.mem_of_mem_filter hef, by simp⟩

/-- C10: in both pipeline aggregations, a fetched record with a missing or
null `status` is assigned to the Draft bucket — the Draft bucket of either
pipeline is exactly the records whose status is null or `"Draft"` — and a
lone record with null status yields a full Draft column (counted and
summed), not an empty output. -/
theorem pipelines_null_status_assigned_to_draft :
    (∀ orders : List SOrder,
      soOrdersFor orders "Draft"
        = orders.filter
            (fun o => decide (o.status = none ∨ o.status = some "Draft"))) ∧
    (∀ orders : List POrder,
      poOrdersFor orders "Draft"
        = orders.filter
            (fun o => decide (o.status = none ∨ o.status = some "Draft"))) ∧
    ((erpnext_order_pipeline
        [ { name := "SO-9", customer := some "CUST-9",
            customer_name := none, status := none,
            grand_total := some 750,
            transaction_date := some "2025-02-01",
            delivery_date := none } ]).map
        (fun c => (c.status, c.label, c.count, c.total))
      = [("Draft", "Draft", 1, (750 : ℚ))]) ∧
    ((erpnext_purchase_pipeline
        [ { name := "PO-9", supplier := some "SUPP-9",
            supplier_name := none, status := none,
            grand_total := some 320,
            transaction_date := some "2025-02-01",
            schedule_date := none } ]).map
        (fun c => (c.status, c.label, c.count, c.total))
      = [("Draft", "Draft", 1, (320 : ℚ))]) := by
  refine ⟨?_, ?_,
    by
      simp only [erpnext_order_pipeline, SO_STATUS_MAP, soOrdersFor,
        soStatusKey, soAmount, soCard, List.filter, List.map]
      simp,
    by
      simp only [erpnext_purchase_pipeline, PO_STATUS_MAP, poOrdersFor,
        poStatusKey, poAmount, poCard, List.filter, List.map]
      simp⟩
  · intro orders
    unfold soOrdersFor
    apply List.filter_congr
    intro o _
    cases h : o.status with
    | none => simp [soStatusKey, h]
    | some s =>
        by_cases hs : s = "Draft" <;> simp [soStatusKey, h, hs]
  · intro orders
    unfold poOrdersFor
    apply List.filter_congr
    intro o _
    cases h : o.status with
    | none => simp [poStatusKey, h]
    | some s =>
        by_cases hs : s = "Draft" <;> simp [poStatusKey, h, hs]

/-! ## Analytics: revenue trend (time series)

`lib/erpnext/tools/analytics.ts`, `erpnext_revenue_trend`. Calendar months
are represented by their absolute month index `year * 12 + month`
(`month` is the 0-based `Date.getMonth()`); the handler's
`startDate = new Date(now.getFullYear(), now.getMonth() - monthsBack + 1, 1)`
is the absolute index `nowAbs - monthsBack + 1` (the JS `Date` constructor
normalises out-of-range months, which the absolute index does
automatically), and the per-order bucket index
`(d.getFullYear() - startDate.getFullYear()) * 12 + d.getMonth() -
startDate.getMonth()` is `absMonth(order) - startAbs`. -/

/-- A fetched Sales Order row for the trend handler, with its
`transaction_date` already parsed into calendar year and 0-based month. -/
structure TrendOrder where
  customer_name : Option String
  grand_total : Option ℚ
  year : ℤ
  month : ℤ
deriving Repr, DecidableEq

/-- Absolute month index of an order's transaction date. -/
def absMonth (o : TrendOrder) : ℤ := o.year * 12 + o.month

/-- `Number(order.grand_total) || 0`. -/
def trendAmount (o : TrendOrder) : ℚ := o.grand_total.getD 0

/-- The short month names used by `toLocaleString("en", {month: "short"})`. -/
def monthShortNames : List String :=
  ["Jan", "Feb", "Mar", "Apr", "May", "Jun",
    "Jul", "Aug", "Sep", "Oct", "Nov", "Dec"]

/-- The label of an absolute month:
`` `${d.toLocaleString("en", {month: "short"})} ${d.getFullYear().toString().slice(2)}` ``. -/
def monthLabel (abs : ℤ) : String :=
  monthShortNames.getD (Int.emod abs 12).toNat "" ++ " " ++
    (toString (Int.fdiv abs 12)).drop 2

/-- The `months` label array: one label per month of the lookback window,
oldest first. -/
def trendMonths (monthsBack : Nat) (startAbs : ℤ) : List String :=
  (List.range monthsBack).map
    (fun (m : Nat) => monthLabel (startAbs + (m : ℤ)))

/-- One loop iteration of the total-revenue accumulation:
`if (mIdx >= 0 && mIdx < monthsBack) monthlyTotals[mIdx] += Number(order.grand_total) || 0`. -/
def trendStep (monthsBack : Nat) (startAbs : ℤ) (acc : List ℚ)
    (o : TrendOrder) : List ℚ :=
  let mIdx := absMonth o - startAbs
  if 0 ≤ mIdx ∧ mIdx < monthsBack then
    acc.set mIdx.toNat (acc.getD mIdx.toNat 0 + trendAmount o)
  else acc

/-- The `monthlyTotals` array of the total branch of
`erpnext_revenue_trend`: starts as `new Array(monthsBack).fill(0)` and
accumulates each fetched order into its month bucket. -/
def erpnext_revenue_trend (monthsBack : Nat) (startAbs : ℤ)
    (orders : List TrendOrder) : List ℚ :=
  orders.foldl (trendStep monthsBack startAbs) (List.replicate monthsBack 0)

theorem trendStep_length (monthsBack : Nat) (startAbs : ℤ) (acc : List ℚ)
    (o : TrendOrder) :
    (trendStep monthsBack startAbs acc o).length = acc.length := by
  unfold trendStep
  dsimp only
  split <;> simp

theorem trend_foldl_length (monthsBack : Nat) (startAbs : ℤ) :
    ∀ (orders : List TrendOrder) (acc : List ℚ),
      (orders.foldl (trendStep monthsBack startAbs) acc).length
        = acc.length := by
  intro orders
  induction orders with
  | nil => intro acc; rfl
  | cons o os ih =>
      intro acc
      rw [List.foldl_cons, ih, trendStep_length]

/-- The bucket of month `i` after the accumulation loop is its starting
value plus the summed amounts of exactly the orders whose month index is
`i`. -/
theorem trend_foldl_getD (monthsBack : Nat) (startAbs : ℤ) :
    ∀ (orders : List TrendOrder) (acc : List ℚ), acc.length = monthsBack →
      ∀ i : Nat, i < monthsBack →
        (orders.foldl (trendStep monthsBack startAbs) acc).getD i 0
          = acc.getD i 0 +
            ((orders.filter
                (fun o => absMonth o - startAbs = (i : ℤ))).map
              trendAmount).sum := by
  intro orders
  induction orders with
  | nil => intro acc _ i _; simp
  | cons o os ih =>
      intro acc hlen i hi
      rw [List.foldl_cons,
        ih (trendStep monthsBack startAbs acc o)
          (by rw [trendStep_length]; exact hlen) i hi]
      by_cases hio : absMonth o - startAbs = (i : ℤ)
      · have hcond : 0 ≤ absMonth o - startAbs ∧
            absMonth o - startAbs < (monthsBack : ℤ) :=
          ⟨by rw [hio]; exact Int.ofNat_nonneg i,
            by rw [hio]; exact_mod_cast hi⟩
        have htn : (absMonth o - startAbs).toNat = i := by
          rw [hio]; exact Int.toNat_natCast i
        have hset : (trendStep monthsBack startAbs acc o).getD i 0
            = acc.getD i 0 + trendAmount o := by
          unfold trendStep
          dsimp only
          rw [if_pos hcond, htn]
          simp only [List.getD_eq_getElem?_getD]
          rw [List.getElem?_set_self (by rw [hlen]; exact hi)]
          simp
        rw [hset, List.filter_cons_of_pos (by simp [hio]),
          List.map_cons, List.sum_cons, add_assoc]
      · have hset : (trendStep monthsBack startAbs acc o).getD i 0
            = acc.getD i 0 := by
          unfold trendStep
          dsimp only
          split
          · rename_i hcond
            have hne : (absMonth o - startAbs).toNat ≠ i := by
              intro heq
              apply hio
              omega
            simp only [List.getD_eq_getElem?_getD]
            rw [List.getElem?_set_ne hne]
          · rfl
        rw [hset, List.filter_cons_of_neg (by simp [hio])]

/-- C7: for every lookback window and fetched order list, the
`erpnext_revenue_trend` time series emits exactly `monthsBack` month
labels and exactly `monthsBack` values, the bucket of each window month is
exactly the sum of the orders falling in that month (in particular a month
with no matching orders carries 0 rather than being dropped), and the
concrete scenario [Jan: 1000, Feb: –, Mar: 500] over a 3-month window
yields labels `["Jan 25", "Feb 25", "Mar 25"]` and values
`[1000, 0, 500]`. -/
theorem revenue_trend_emits_every_month (monthsBack : Nat) (startAbs : ℤ)
    (orders : List TrendOrder) :
    (trendMonths monthsBack startAbs).length = monthsBack ∧
    (erpnext_revenue_trend monthsBack startAbs orders).length = monthsBack ∧
    (∀ i : Nat, i < monthsBack →
      (erpnext_revenue_trend monthsBack startAbs orders).getD i 0
        = ((orders.filter
            (fun o => absMonth o - startAbs = (i : ℤ))).map
          trendAmount).sum) ∧
    (trendMonths 3 (2025 * 12)
        = ["Jan 25", "Feb 25", "Mar 25"] ∧
      erpnext_revenue_trend 3 (2025 * 12)
          [ { customer_name := some "Alice", grand_total := some 1000,
              year := 2025, month := 0 },
            { customer_name := some "Bob", grand_total := some 500,
              year := 2025, month := 2 } ]
        = [1000, 0, 500]) := by
  refine ⟨by unfold trendMonths; rw [List.length_map, List.length_range],
    ?_, ?_, by decide, ?_⟩
  · unfold erpnext_revenue_trend
    rw [trend_foldl_length]
    simp
  · intro i hi
    unfold erpnext_revenue_trend
    rw [trend_foldl_getD monthsBack startAbs orders _ (by simp) i hi]
    simp [List.getD_eq_getElem?_getD, List.getElem?_replicate, hi]
  · norm_num [erpnext_revenue_trend, trendStep, absMonth, trendAmount,
      List.replicate, Int.toNat]

/-- C7 witness: the month-sum equation at a concrete window and month
index — month 1 of a 3-month window with no matching order evaluates to
0. -/
theorem revenue_trend_emits_every_month_witness :
    (1 : Nat) < 3 ∧
    (erpnext_revenue_trend 3 (2025 * 12)
        [ { customer_name := some "Alice", grand_total := some 1000,
            year := 2025, month := 0 } ]).getD 1 0
      = ((([ { customer_name := some "Alice",
               grand_total := some 1000,
               year := 2025, month := 0 } ] : List TrendOrder).filter
          (fun o => absMonth o - 2025 * 12 = (1 : ℤ))).map
        trendAmount).sum := by
  refine ⟨by norm_num, ?_⟩
  exact (revenue_trend_emits_every_month 3 (2025 * 12)
    [ { customer_name := some "Alice", grand_total := some 1000,
        year := 2025, month := 0 } ]).2.2.1 1 (by norm_num)

/-! ## Analytics: accounts-receivable aging

`lib/erpnext/tools/analytics.ts`, `erpnext_ar_aging`. Dates are carried as
millisecond timestamps (`Date.getTime()`); `Math.floor((today.getTime() -
dueDate.getTime()) / 86400000)` on integer timestamps is `Int.fdiv` by the
milliseconds of one day. `findIndex` returning `-1` is modelled as
`List.findIdx?` returning `none`. -/

/-- A fetched outstanding Sales Invoice row (the fields the aging handler
selects), dates parsed to millisecond timestamps. -/
structure ARInvoice where
  customer_name : Option String
  outstanding_amount : Option ℚ
  due_date : Option ℤ
  posting_date : Option ℤ
deriving Repr, DecidableEq

/-- One aging bucket of the `BUCKETS` literal. -/
structure AgingBucket where
  label : String
  min : ℤ
  max : ℤ
  color : String
deriving Repr, DecidableEq

/-- The `BUCKETS` literal of `erpnext_ar_aging`, in source order. -/
def BUCKETS : List AgingBucket :=
  [ { label := "0-30 days", min := 0, max := 30, color := "#4ade80" },
    { label := "31-60 days", min := 31, max := 60, color := "#fbbf24" },
    { label := "61-90 days", min := 61, max := 90, color := "#fb923c" },
    { label := "90+ days", min := 91, max := 99999, color := "#f87171" } ]

/-- The reference timestamp of an invoice:
`(inv.due_date ?? inv.posting_date)`, falling back to `today` when both are
null (`dateStr ? new Date(dateStr) : today`). -/
def refDateMs (inv : ARInvoice) (todayMs : ℤ) : ℤ :=
  ((inv.due_date).orElse (fun _ => inv.posting_date)).getD todayMs

/-- `Math.max(0, Math.floor((today.getTime() - dueDate.getTime()) / 86400000))`. -/
def agingDays (todayMs : ℤ) (inv : ARInvoice) : ℤ :=
  Max.max 0 (Int.fdiv (todayMs - refDateMs inv todayMs) 86400000)

/-- `BUCKETS.findIndex((b) => agingDays >= b.min && agingDays <= b.max)`,
with `-1` as `none`. -/
def agingBucketIdx (todayMs : ℤ) (inv : ARInvoice) : Option Nat :=
  BUCKETS.findIdx?
    (fun b => decide (b.min ≤ agingDays todayMs inv ∧
      agingDays todayMs inv ≤ b.max))

/-- The label of the bucket an invoice is classified into. -/
def agingBucketLabel (todayMs : ℤ) (inv : ARInvoice) : Option String :=
  (agingBucketIdx todayMs inv).bind
    (fun i => (BUCKETS.get? i).map AgingBucket.label)

/-- C5: the aging classification of `erpnext_ar_aging` — aging days are the
floored day difference `today - reference`, clamped below at 0, where the
reference date falls back from `due_date` to `posting_date`; an invoice
with 0 aging days lands in the "0-30 days" bucket, one overdue by exactly
31 days lands in "31-60 days", a fractional 31st day still floors into
"0-30 days", and a future due date (negative raw day count) clamps to 0
and lands in "0-30 days". -/
theorem ar_aging_bucket_classification (todayMs : ℤ) (c : Option String)
    (amt : Option ℚ) :
    (∀ p : ℤ, ∀ q : Option ℤ,
      agingDays todayMs
          { customer_name := c, outstanding_amount := amt,
            due_date := none, posting_date := some p }
        = agingDays todayMs
          { customer_name := c, outstanding_amount := amt,
            due_date := some p, posting_date := q }) ∧
    (agingBucketLabel todayMs
        { customer_name := c, outstanding_amount := amt,
          due_date := some todayMs, posting_date := none }
      = some "0-30 days") ∧
    (agingBucketLabel todayMs
        { customer_name := c, outstanding_amount := amt,
          due_date := some (todayMs - 31 * 86400000), posting_date := none }
      = some "31-60 days") ∧
    (agingBucketLabel todayMs
        { customer_name := c, outstanding_amount := amt,
          due_date := some (todayMs - (31 * 86400000 - 1)),
          posting_date := none }
      = some "0-30 days") ∧
    (∀ d : ℤ, todayMs < d →
      agingDays todayMs
          { customer_name := c, outstanding_amount := amt,
            due_date := some d, posting_date := none } = 0 ∧
      agingBucketLabel todayMs
          { customer_name := c, outstanding_amount := amt,
            due_date := some d, posting_date := none }
        = some "0-30 days") := by
  refine ⟨?_, ?_, ?_, ?_, ?_⟩
  · intro p q
    rfl
  · have h : agingDays todayMs
        { customer_name := c, outstanding_amount := amt,
          due_date := some todayMs, posting_date := none } = 0 := by
      unfold agingDays refDateMs
      simp
    unfold agingBucketLabel agingBucketIdx
    rw [h]
    rfl
  · have h : agingDays todayMs
        { customer_name := c, outstanding_amount := amt,
          due_date := some (todayMs - 31 * 86400000),
          posting_date := none } = 31 := by
      unfold agingDays refDateMs
      simp only [Option.orElse, Option.getD]
      have hdiff : todayMs - (todayMs - 31 * 86400000) = 31 * 86400000 := by
        ring
      rw [hdiff, Int.mul_fdiv_cancel 31 (by norm_num)]
      rfl
    unfold agingBucketLabel agingBucketIdx
    rw [h]
    rfl
  · have h : agingDays todayMs
        { customer_name := c, outstanding_amount := amt,
          due_date := some (todayMs - (31 * 86400000 - 1)),
          posting_date := none } = 30 := by
      unfold agingDays refDateMs
      simp only [Option.orElse, Option.getD]
      have hdiff : todayMs - (todayMs - (31 * 86400000 - 1))
          = 31 * 86400000 - 1 := by
        ring
      rw [hdiff]
      decide
    unfold agingBucketLabel agingBucketIdx
    rw [h]
    rfl
  · intro d hd
    have h : agingDays todayMs
        { customer_name := c, outstanding_amount := amt,
          due_date := some d, posting_date := none } = 0 := by
      unfold agingDays refDateMs
      simp only [Option.orElse, Option.getD]
      have hneg : (todayMs - d).fdiv 86400000 < 0 :=
        Int.fdiv_neg' (by omega) (by norm_num)
      omega
    refine ⟨h, ?_⟩
    unfold agingBucketLabel agingBucketIdx
    rw [h]
    rfl

/-- C5 witness: the classification at a concrete input — an invoice due
one day in the future (today = 0 ms, due = 86400000 ms) clamps to 0 aging
days and lands in the "0-30 days" bucket. -/
theorem ar_aging_bucket_classification_witness :
    (0 : ℤ) < 86400000 ∧
    (agingDays 0
        { customer_name := some "Acme", outstanding_amount := some 100,
          due_date := some 86400000, posting_date := none } = 0 ∧
      agingBucketLabel 0
          { customer_name := some "Acme", outstanding_amount := some 100,
            due_date := some 86400000, posting_date := none }
        = some "0-30 days") := by
  refine ⟨by norm_num, ?_⟩
  exact (ar_aging_bucket_classification 0 (some "Acme")
    (some 100)).2.2.2.2 86400000 (by norm_num)

/-! ## Analytics: chart payloads (labels/datasets alignment)

The chart-shaped outputs of `lib/erpnext/tools/analytics.ts`. JS `Record`
accumulators are insertion-ordered association lists (`updAssoc` mirrors
the `if (!m[k]) m[k] = init; m[k] = f(m[k])` pattern), `Array.prototype.sort`
with a numeric comparator is a stable merge sort on the key, and
`.slice(0, limit)` is `List.take`. The impure `generatedAt` timestamp field
is not part of the model. -/

/-- An insertion-ordered JS `Record` update:
`if (!m[k]) m[k] = init; m[k] = f(m[k])`. -/
def updAssoc {α : Type} (m : List (String × α)) (k : String) (init : α)
    (f : α → α) : List (String × α) :=
  if m.any (fun p => p.1 == k) then
    m.map (fun p => if p.1 == k then (p.1, f p.2) else p)
  else
    m ++ [(k, f init)]

/-- `m[k]` on a JS `Record`. -/
def assocGet {α : Type} (m : List (String × α)) (k : String) : Option α :=
  (m.find? (fun p => p.1 == k)).map Prod.snd

/-- `.sort((a, b) => key(b) - key(a))`: stable descending sort by a numeric
key. -/
def jsSortDescBy {α : Type} (key : α → ℚ) (l : List α) : List α :=
  l.mergeSort (fun a b => decide (key b ≤ key a))

/-- One dataset of a chart payload. -/
structure Dataset where
  label : String
  values : List ℚ
  color : Option String := none
  stack : Option String := none
  type : Option String := none
  yAxisId : Option String := none
  showDots : Option Bool := none
deriving Repr

/-- A chart payload: type tag, ordered labels, datasets, and the static
side fields the handlers attach. -/
structure ChartPayload where
  title : String
  subtitle : Option String := none
  type : String
  labels : List String
  datasets : List Dataset
  currency : Option String := none
  unit : Option String := none
  xAxisLabel : Option String := none
  yAxisLabel : Option String := none
  rightAxisLabel : Option String := none
  showRightAxis : Option Bool := none
deriving Repr

/-- A fetched `Bin` row for the stock chart. -/
structure BinRow where
  item_code : String
  warehouse : Option String
  actual_qty : Option ℚ
  stock_value : Option ℚ
deriving Repr

/-- `erpnext_stock_chart` (categorical): aggregate `actual_qty` and
`stock_value` per item, sort by quantity descending, truncate to `limit`,
then one labels entry and one dataset value per kept item. -/
def erpnext_stock_chart (warehouse inputType : Option String) (limit : Nat)
    (bins : List BinRow) : ChartPayload :=
  let byItem := bins.foldl
    (fun m b =>
      updAssoc m b.item_code ((0 : ℚ), (0 : ℚ))
        (fun qv => (qv.1 + b.actual_qty.getD 0, qv.2 + b.stock_value.getD 0)))
    []
  let sorted := (jsSortDescBy (fun p => p.2.1) byItem).take limit
  { title := "Stock Levels"
    subtitle := some (warehouse.getD "All Warehouses")
    type := inputType.getD (if 6 < sorted.length then "horizontal-bar" else "bar")
    labels := sorted.map Prod.fst
    datasets :=
      [ { label := "Qty on Hand"
          values := sorted.map (fun p => p.2.1)
          color := some "#60a5fa" } ]
    unit := some "units" }

/-- `erpnext_revenue_trend` (time series), total branch, as a full chart
payload: the month labels of the window and one `Revenue` dataset holding
the monthly totals. -/
def erpnext_revenue_trend_payload (monthsBack : Nat) (startAbs : ℤ)
    (chartType : String) (orders : List TrendOrder) : ChartPayload :=
  { title := "Revenue Trend"
    subtitle := some ("Last " ++ toString monthsBack ++ " months")
    type := chartType
    labels := trendMonths monthsBack startAbs
    datasets :=
      [ { label := "Revenue"
          values := erpnext_revenue_trend monthsBack startAbs orders
          color := some "#60a5fa"
          showDots := some true } ]
    currency := some "EUR"
    yAxisLabel := some "Revenue" }

/-- A fetched Sales Order row for the breakdown chart. -/
structure BOrder where
  customer_name : Option String
  status : Option String
  grand_total : Option ℚ
deriving Repr

/-- The `STATUS_ORDER` literal of the stacked branch of
`erpnext_order_breakdown`. -/
def STATUS_ORDER : List String :=
  ["Draft", "To Deliver and Bill", "To Bill", "Completed", "Cancelled"]

/-- The `STATUS_COLORS` literal of the stacked branch. -/
def STATUS_COLORS : List (String × String) :=
  [ ("Draft", "#78716c"), ("To Deliver and Bill", "#60a5fa"),
    ("To Bill", "#c084fc"), ("Completed", "#4ade80"),
    ("Cancelled", "#f87171") ]

/-- `erpnext_order_breakdown` (stacked-bar branch): group order value by
customer and status, keep the top-`limit` customers by total, keep only
the statuses with a positive value among the kept customers, and emit one
dataset per kept status with one value per kept customer. -/
def erpnext_order_breakdown (limit : Nat) (orders : List BOrder) :
    ChartPayload :=
  let byCustomerStatus := orders.foldl
    (fun m o =>
      let c := o.customer_name.getD "Unknown"
      let s := o.status.getD "Draft"
      updAssoc m c []
        (fun inner => updAssoc inner s 0 (fun v => v + o.grand_total.getD 0)))
    []
  let customerTotals :=
    (jsSortDescBy (fun p => p.2)
      (byCustomerStatus.map (fun p => (p.1, (p.2.map Prod.snd).sum)))).take
      limit
  let customers := customerTotals.map Prod.fst
  let csGet := fun (c s : String) =>
    ((assocGet byCustomerStatus c).bind
      (fun inner => assocGet inner s)).getD 0
  let activeStatuses :=
    STATUS_ORDER.filter (fun s => customers.any (fun c => 0 < csGet c s))
  { title := "Order Value by Customer & Status"
    type := "stacked-bar"
    labels := customers
    datasets := activeStatuses.map
      (fun s =>
        { label := if s == "To Deliver and Bill" then "To Deliver" else s
          values := customers.map (fun c => csGet c s)
          color := some ((assocGet STATUS_COLORS s).getD "#94a3b8")
          stack := some "status" })
    currency := some "EUR"
    xAxisLabel := some "Customer"
    yAxisLabel := some "Order Value" }

/-- A fetched Sales Order row for the revenue-vs-orders chart. -/
structure RVOrder where
  customer_name : Option String
  grand_total : Option ℚ
deriving Repr

/-- `erpnext_revenue_vs_orders` (composed, dual axis): revenue total and
order count per customer, top-`limit` by revenue; revenue bars on the left
axis, order-count line on the right axis. -/
def erpnext_revenue_vs_orders (limit : Nat) (orders : List RVOrder) :
    ChartPayload :=
  let byCustomer := orders.foldl
    (fun m o =>
      updAssoc m (o.customer_name.getD "Unknown") ((0 : ℚ), (0 : ℚ))
        (fun tc => (tc.1 + o.grand_total.getD 0, tc.2 + 1)))
    []
  let sorted := (jsSortDescBy (fun p => p.2.1) byCustomer).take limit
  { title := "Revenue vs Order Count"
    subtitle := some ("Top " ++ toString sorted.length ++ " customers")
    type := "composed"
    labels := sorted.map Prod.fst
    datasets :=
      [ { label := "Revenue"
          values := sorted.map (fun p => p.2.1)
          color := some "#60a5fa"
          type := some "bar" },
        { label := "Orders"
          values := sorted.map (fun p => p.2.2)
          color := some "#fbbf24"
          type := some "line"
          yAxisId := some "right"
          showDots := some true } ]
    showRightAxis := some true
    yAxisLabel := some "Revenue (€)"
    rightAxisLabel := some "# Orders"
    currency := some "EUR" }

/-- One loop iteration of the AR-aging accumulation: ensure the customer
row exists (`new Array(BUCKETS.length).fill(0)`), then add the outstanding
amount into the bucket, when one matched. -/
def arStep (todayMs : ℤ) (m : List (String × List ℚ)) (inv : ARInvoice) :
    List (String × List ℚ) :=
  let customer := inv.customer_name.getD "Unknown"
  let m1 := updAssoc m customer (List.replicate BUCKETS.length 0) id
  match agingBucketIdx todayMs inv with
  | some bi =>
      updAssoc m1 customer (List.replicate BUCKETS.length 0)
        (fun arr =>
          arr.set bi (arr.getD bi 0 + inv.outstanding_amount.getD 0))
  | none => m1

/-- `erpnext_ar_aging` (stacked-bar / horizontal-bar branch): per-customer
bucket totals, top-`limit` customers by total outstanding, one dataset per
aging bucket with one value per kept customer. -/
def erpnext_ar_aging (todayMs : ℤ) (chartType : String) (limit : Nat)
    (invoices : List ARInvoice) : ChartPayload :=
  let byCustomer := invoices.foldl (arStep todayMs) []
  let sorted := (jsSortDescBy (fun p => p.2.sum) byCustomer).take limit
  let customers := sorted.map Prod.fst
  { title := "Accounts Receivable Aging"
    subtitle := some ("Top " ++ toString customers.length ++ " customers")
    type := chartType
    labels := customers
    datasets := BUCKETS.enum.map
      (fun bb =>
        { label := bb.2.label
          values := sorted.map (fun p => p.2.getD bb.1 0)
          color := some bb.2.color
          stack := some "aging" })
    currency := some "EUR"
    xAxisLabel := some "Customer"
    yAxisLabel := some "Outstanding Amount" }

/-- C8: in every chart payload produced by the embedded aggregation
handlers — categorical (`erpnext_stock_chart`), time-series
(`erpnext_revenue_trend`), stacked (`erpnext_order_breakdown`), composed
(`erpnext_revenue_vs_orders`) and aging (`erpnext_ar_aging`) — every
dataset's values array has exactly the same length as the payload's labels
array. -/
theorem chart_datasets_align_with_labels :
    (∀ (warehouse inputType : Option String) (limit : Nat)
        (bins : List BinRow),
      (erpnext_stock_chart warehouse inputType limit bins).datasets.all
        (fun ds => ds.values.length ==
          (erpnext_stock_chart warehouse inputType limit bins).labels.length)
        = true) ∧
    (∀ (monthsBack : Nat) (startAbs : ℤ) (chartType : String)
        (orders : List TrendOrder),
      (erpnext_revenue_trend_payload monthsBack startAbs chartType
          orders).datasets.all
        (fun ds => ds.values.length ==
          (erpnext_revenue_trend_payload monthsBack startAbs chartType
            orders).labels.length) = true) ∧
    (∀ (limit : Nat) (orders : List BOrder),
      (erpnext_order_breakdown limit orders).datasets.all
        (fun ds => ds.values.length ==
          (erpnext_order_breakdown limit orders).labels.length) = true) ∧
    (∀ (limit : Nat) (orders : List RVOrder),
      (erpnext_revenue_vs_orders limit orders).datasets.all
        (fun ds => ds.values.length ==
          (erpnext_revenue_vs_orders limit orders).labels.length) = true) ∧
    (∀ (todayMs : ℤ) (chartType : String) (limit : Nat)
        (invoices : List ARInvoice),
      (erpnext_ar_aging todayMs chartType limit invoices).datasets.all
        (fun ds => ds.values.length ==
          (erpnext_ar_aging todayMs chartType limit invoices).labels.length)
        = true) := by
  refine ⟨?_, ?_, ?_, ?_, ?_⟩
  · intro warehouse inputType limit bins
    simp [erpnext_stock_chart]
  · intro monthsBack startAbs chartType orders
    simp only [erpnext_revenue_trend_payload, List.all_cons, List.all_nil,
      Bool.and_true]
    rw [Nat.beq_eq_true_eq]
    unfold erpnext_revenue_trend trendMonths
    rw [trend_foldl_length]
    simp
  · intro limit orders
    rw [List.all_eq_true]
    intro ds hds
    simp only [erpnext_order_breakdown, List.mem_map] at hds
    obtain ⟨st, hst, hdef⟩ := hds
    subst hdef
    simp [erpnext_order_breakdown]
  · intro limit orders
    simp [erpnext_revenue_vs_orders]
  · intro todayMs chartType limit invoices
    rw [List.all_eq_true]
    intro ds hds
    simp only [erpnext_ar_aging, List.mem_map] at hds
    obtain ⟨bb, hbb, rfl⟩ := hds
    simp [erpnext_ar_aging]

end Mcp
